import Mathlib

/-
Verification of the apartment-finder extraction and change-detection pipeline.

This file gives a shallow embedding, in Lean 4, of the core of the
apartment-finder repository: the field parsers (src/scrapers/base.py and
src/scrapers/playwright_scraper.py), the record-identity fingerprint
(src/models/listing.py), the per-candidate listing construction of both
scraper variants (src/scrapers/static_scraper.py and
src/scrapers/playwright_scraper.py), the listing store
(src/models/database.py) and the scrape orchestration (src/server.py).

Modelling conventions:
  - Python numeric values produced by the parsers are modelled as exact
    rationals: every value the parsers build is a short decimal numeral,
    represented here by its exact decimal value.
  - Machine-level regular expressions are modelled by an explicit ordered
    backtracking matcher over the character classes actually used; the
    character classes (digits, word characters, whitespace) are read in
    their ASCII meaning.
  - Fallible Python operations (float() or int() on a malformed string,
    len() on a non-sequence value, a failed page fetch) are modelled with
    Except; code that catches an exception is modelled by the
    corresponding total branch.
  - A datetime.date value is modelled by PyDate together with the
    constructor validity check mkDate?; the ambient current date
    (date.today()) is passed explicitly as a parameter.
-/

/- ===== Small Python-style string helpers ===== -/

/-- ASCII lower-casing of a string, modelling Python str.lower() on the
ASCII inputs used by the parsers. -/
def pyLower (s : String) : String := String.mk (s.data.map Char.toLower)

/-- Membership test of one string inside another, modelling Python's
`pat in s`. -/
def isSubstringOf (pat s : String) : Bool :=
  (List.range (s.data.length + 1)).any (fun i => pat.data.isPrefixOf (s.data.drop i))

/-- Value of a list of decimal digit characters read as a base-10 numeral,
modelling Python int() on a digit string. -/
def digitsVal (ds : List Char) : Nat := ds.foldl (fun a c => a * 10 + (c.toNat - 48)) 0

/-- Character class of `[\d.]`: an ASCII digit or a decimal point. -/
def isDigitOrDot (c : Char) : Bool := c.isDigit || c == '.'

/-- Character class of `[\d,]`: an ASCII digit or a comma. -/
def isDigitOrComma (c : Char) : Bool := c.isDigit || c == ','

/-- Character class of `\w`: ASCII letter, digit or underscore. -/
def isWordChar (c : Char) : Bool := c.isAlphanum || c == '_'

/-- Character class of `\s`: ASCII whitespace (space, tab, newline,
carriage return, vertical tab, form feed). -/
def isSpaceChar (c : Char) : Bool :=
  c == ' ' || c == '\t' || c == '\n' || c == '\r' || c.toNat == 11 || c.toNat == 12

/-- Python float() restricted to the strings built from digits and decimal
points, the only shapes reaching float() in this code base (either a
re.sub keeping only `[\d.]`, or a match of the class `[\d.]+`): the
conversion succeeds exactly on a non-empty all-digit-or-dot string with at
least one digit and at most one dot, and yields its exact decimal value;
`none` models the ValueError raised otherwise. -/
def pyFloat? (s : String) : Option ℚ :=
  let cs := s.data
  if cs.all isDigitOrDot && cs.any Char.isDigit && decide (cs.count '.' ≤ 1) then
    let a := cs.takeWhile (fun c => !(c == '.'))
    let b := (cs.dropWhile (fun c => !(c == '.'))).drop 1
    some (mkRat ((digitsVal a * 10 ^ b.length + digitsVal b : Nat) : Int) (10 ^ b.length))
  else none

/- ===== Calendar dates (datetime.date) ===== -/

/-- A Python datetime.date value. -/
structure PyDate where
  year : Nat
  month : Nat
  day : Nat
deriving DecidableEq

/-- Gregorian leap-year test, as used by datetime.date. -/
def isLeapYear (y : Nat) : Bool := y % 4 == 0 && (y % 100 != 0 || y % 400 == 0)

/-- Number of days in a month of a given year. -/
def daysInMonth (y m : Nat) : Nat :=
  if m == 2 then (if isLeapYear y then 29 else 28)
  else if m == 4 || m == 6 || m == 9 || m == 11 then 30
  else 31

/-- The datetime.date constructor: `some` on a valid proleptic Gregorian
date with 1 <= year <= 9999, `none` models the ValueError raised on an
invalid date such as month 13. -/
def mkDate? (y m d : Nat) : Option PyDate :=
  if 1 ≤ y ∧ y ≤ 9999 ∧ 1 ≤ m ∧ m ≤ 12 ∧ 1 ≤ d ∧ d ≤ daysInMonth y m then
    some ⟨y, m, d⟩
  else none

/- ===== SHA-256 (hashlib.sha256(...).hexdigest()) ===== -/

/-- 2^32, the word modulus of SHA-256. -/
def M32 : Nat := 4294967296

/-- Right rotation of a 32-bit word (k must be 1..31, as in all uses). -/
def rotr32 (x k : Nat) : Nat := (x >>> k) ||| ((x % (2 ^ k)) <<< (32 - k))

/-- SHA-256 big sigma-0. -/
def bigS0 (x : Nat) : Nat := rotr32 x 2 ^^^ rotr32 x 13 ^^^ rotr32 x 22

/-- SHA-256 big sigma-1. -/
def bigS1 (x : Nat) : Nat := rotr32 x 6 ^^^ rotr32 x 11 ^^^ rotr32 x 25

/-- SHA-256 small sigma-0. -/
def smallS0 (x : Nat) : Nat := rotr32 x 7 ^^^ rotr32 x 18 ^^^ (x >>> 3)

/-- SHA-256 small sigma-1. -/
def smallS1 (x : Nat) : Nat := rotr32 x 17 ^^^ rotr32 x 19 ^^^ (x >>> 10)

/-- SHA-256 choice function. -/
def shaCh (e f g : Nat) : Nat := (e &&& f) ^^^ ((e ^^^ (M32 - 1)) &&& g)

/-- SHA-256 majority function. -/
def shaMaj (a b c : Nat) : Nat := (a &&& b) ^^^ (a &&& c) ^^^ (b &&& c)

/-- The eight working words of the SHA-256 state. -/
structure Hash8 where
  a : Nat
  b : Nat
  c : Nat
  d : Nat
  e : Nat
  f : Nat
  g : Nat
  h : Nat
deriving DecidableEq

/-- The SHA-256 initial hash value. -/
def initHash : Hash8 :=
  ⟨1779033703, 3144134277, 1013904242, 2773480762,
   1359893119, 2600822924, 528734635, 1541459225⟩

/-- The 64 SHA-256 round constants. -/
def kConsts : List Nat :=
  [1116352408, 1899447441, 3049323471, 3921009573, 961987163, 1508970993,
   2453635748, 2870763221, 3624381080, 310598401, 607225278, 1426881987,
   1925078388, 2162078206, 2614888103, 3248222580, 3835390401, 4022224774,
   264347078, 604807628, 770255983, 1249150122, 1555081692, 1996064986,
   2554220882, 2821834349, 2952996808, 3210313671, 3336571891, 3584528711,
   113926993, 338241895, 666307205, 773529912, 1294757372, 1396182291,
   1695183700, 1986661051, 2177026350, 2456956037, 2730485921, 2820302411,
   3259730800, 3345764771, 3516065817, 3600352804, 4094571909, 275423344,
   430227734, 506948616, 659060556, 883997877, 958139571, 1322822218,
   1537002063, 1747873779, 1955562222, 2024104815, 2227730452, 2361852424,
   2428436474, 2756734187, 3204031479, 3329325298]

/-- One SHA-256 compression round. -/
def compressWord (st : Hash8) (w k : Nat) : Hash8 :=
  let t1 := (st.h + bigS1 st.e + shaCh st.e st.f st.g + k + w) % M32
  let t2 := (bigS0 st.a + shaMaj st.a st.b st.c) % M32
  ⟨(t1 + t2) % M32, st.a, st.b, st.c, (st.d + t1) % M32, st.e, st.f, st.g⟩

/-- Group a chunk of bytes into big-endian 32-bit words. -/
def words16 : List Nat → List Nat
  | b0 :: b1 :: b2 :: b3 :: rest =>
      (((b0 * 256 + b1) * 256 + b2) * 256 + b3) :: words16 rest
  | _ => []

/-- Extend the reversed message-schedule list by n further words. -/
def schedRev : Nat → List Nat → List Nat
  | 0, rev => rev
  | n + 1, rev =>
      let w2 := rev.getD 1 0
      let w7 := rev.getD 6 0
      let w15 := rev.getD 14 0
      let w16 := rev.getD 15 0
      schedRev n (((w16 + smallS0 w15 + w7 + smallS1 w2) % M32) :: rev)

/-- The 64-entry SHA-256 message schedule of a 16-word chunk. -/
def schedule (first16 : List Nat) : List Nat := (schedRev 48 first16.reverse).reverse

/-- Process one 64-byte chunk. -/
def processChunk (st : Hash8) (chunk : List Nat) : Hash8 :=
  let ws := schedule (words16 chunk)
  let t := (ws.zip kConsts).foldl (fun s wk => compressWord s wk.1 wk.2) st
  ⟨(st.a + t.a) % M32, (st.b + t.b) % M32, (st.c + t.c) % M32, (st.d + t.d) % M32,
   (st.e + t.e) % M32, (st.f + t.f) % M32, (st.g + t.g) % M32, (st.h + t.h) % M32⟩

/-- The big-endian 8-byte encoding of a (64-bit) natural number. -/
def beBytes8 (n : Nat) : List Nat :=
  [(n >>> 56) % 256, (n >>> 48) % 256, (n >>> 40) % 256, (n >>> 32) % 256,
   (n >>> 24) % 256, (n >>> 16) % 256, (n >>> 8) % 256, n % 256]

/-- SHA-256 padding for a message of the given byte length. -/
def shaPad (len : Nat) : List Nat :=
  128 :: (List.replicate ((119 - (len % 64)) % 64) 0 ++ beBytes8 (8 * len))

/-- Split a byte list into 64-byte chunks. -/
def chunk64 : List Nat → List (List Nat)
  | [] => []
  | b :: rest => ((b :: rest).take 64) :: chunk64 ((b :: rest).drop 64)
termination_by l => l.length
decreasing_by simp [List.length_drop]; omega

/-- One hexadecimal digit character (for a value below 16). -/
def hexChar (n : Nat) : Char :=
  if n < 10 then Char.ofNat (48 + n) else Char.ofNat (87 + n)

/-- The eight-character lowercase hexadecimal rendering of a 32-bit word. -/
def hexOfWord (w : Nat) : List Char :=
  (List.range 8).map (fun i => hexChar ((w >>> (28 - 4 * i)) % 16))

/-- hashlib.sha256(bytes).hexdigest(), as a list of characters. -/
def sha256hexChars (msg : List Nat) : List Char :=
  let padded := msg ++ shaPad msg.length
  let fin := (chunk64 padded).foldl processChunk initHash
  hexOfWord fin.a ++ hexOfWord fin.b ++ hexOfWord fin.c ++ hexOfWord fin.d ++
  hexOfWord fin.e ++ hexOfWord fin.f ++ hexOfWord fin.g ++ hexOfWord fin.h

/-- UTF-8 encoding of one character, modelling Python str.encode(). -/
def utf8Enc (c : Char) : List Nat :=
  let n := c.toNat
  if n < 128 then [n]
  else if n < 2048 then [192 ||| (n >>> 6), 128 ||| (n &&& 63)]
  else if n < 65536 then
    [224 ||| (n >>> 12), 128 ||| ((n >>> 6) &&& 63), 128 ||| (n &&& 63)]
  else
    [240 ||| (n >>> 18), 128 ||| ((n >>> 12) &&& 63),
     128 ||| ((n >>> 6) &&& 63), 128 ||| (n &&& 63)]

/-- The UTF-8 byte sequence of a string, modelling Python str.encode(). -/
def strUtf8 (s : String) : List Nat := s.data.foldr (fun c acc => utf8Enc c ++ acc) []

/- ===== Record model (src/models/listing.py) ===== -/

/-- A rental listing record (the dataclass Listing of src/models/listing.py).
The scraped_at timestamp carries no algorithmic content here and is kept as
an abstract Nat; numeric fields hold the exact decimal values produced by
the field parsers. -/
structure Listing where
  site_name : String
  title : String
  url : String
  price : Option ℚ := none
  bedrooms : Option Nat := none
  bathrooms : Option ℚ := none
  sqft : Option Nat := none
  available : Bool := true
  move_in_date : Option PyDate := none
  scraped_at : Nat := 0
  id : String := ""
deriving DecidableEq

/-- Listing._generate_id: the fingerprint of a record, the SHA-256
hexdigest of the UTF-8 bytes of "site_name|title|url" truncated to its
first 16 characters. -/
def Listing._generate_id (site_name title url : String) : String :=
  String.mk ((sha256hexChars (strUtf8 (site_name ++ "|" ++ title ++ "|" ++ url))).take 16)

/-- Construction of a Listing as done by the scrapers: no id is passed, so
Listing.__post_init__ derives it with Listing._generate_id. -/
def mkListing (site_name title url : String) (price : Option ℚ) (bedrooms : Option Nat)
    (bathrooms : Option ℚ) (sqft : Option Nat) (available : Bool)
    (move_in_date : Option PyDate) (scraped_at : Nat) : Listing :=
  { site_name := site_name, title := title, url := url, price := price,
    bedrooms := bedrooms, bathrooms := bathrooms, sqft := sqft,
    available := available, move_in_date := move_in_date,
    scraped_at := scraped_at, id := Listing._generate_id site_name title url }

/- ===== A small ordered backtracking regex matcher =====

Python's re module performs a leftmost search, and within one start
position explores alternatives in source order and quantifiers greedily,
taking the first complete match.  Each matcher below maps the subject (as
a character list) and a start index to the list of (end index, captured
groups) pairs in exactly that exploration order, so the overall first
match of a search is the head of the result list at the leftmost index
where the list is non-empty.  All groups in the patterns of this code
base are non-nested and are concatenated left to right. -/

/-- Result alternatives of a matcher at one start position, in
backtracking priority order. -/
abbrev MRes := List (Nat × List String)

/-- An ordered backtracking matcher. -/
abbrev Matcher := List Char → Nat → MRes

/-- Match a literal string. -/
def mLit (w : String) : Matcher := fun cs i =>
  if w.data.isPrefixOf (cs.drop i) then [(i + w.data.length, [])] else []

/-- Sequencing of two matchers; group lists concatenate. -/
def mSeq (m1 m2 : Matcher) : Matcher := fun cs i =>
  (m1 cs i).flatMap (fun p => (m2 cs p.1).map (fun q => (q.1, p.2 ++ q.2)))

/-- Ordered alternation, first alternative preferred. -/
def mAlt (ms : List Matcher) : Matcher := fun cs i => ms.flatMap (fun m => m cs i)

/-- Length of the maximal run of class characters starting at an index. -/
def runLen (p : Char → Bool) (cs : List Char) (i : Nat) : Nat :=
  ((cs.drop i).takeWhile p).length

/-- Greedy unbounded class repetition `p*`: lengths from longest to 0. -/
def mClsStar (p : Char → Bool) : Matcher := fun cs i =>
  let r := runLen p cs i
  (List.range (r + 1)).map (fun k => (i + (r - k), []))

/-- Greedy class repetition `p{lo,hi}`: lengths from min(run,hi) down
to lo. -/
def mClsRep (p : Char → Bool) (lo hi : Nat) : Matcher := fun cs i =>
  let r := min (runLen p cs i) hi
  if r < lo then []
  else (List.range (r + 1 - lo)).map (fun k => (i + (r - k), []))

/-- Greedy class repetition `p+`: lengths from the full run down to 1. -/
def mClsPlus (p : Char → Bool) : Matcher := fun cs i =>
  let r := runLen p cs i
  if r = 0 then [] else (List.range r).map (fun k => (i + (r - k), []))

/-- A single class character. -/
def mCls (p : Char → Bool) : Matcher := fun cs i =>
  match (cs.drop i).head? with
  | some c => if p c then [(i + 1, [])] else []
  | none => []

/-- Greedy option `m?`: with the piece first, then without. -/
def mOpt (m : Matcher) : Matcher := fun cs i => m cs i ++ [(i, [])]

/-- The `$` anchor: end of subject, or just before one final newline. -/
def mEnd : Matcher := fun cs i =>
  if i = cs.length ∨ (i + 1 = cs.length ∧ (cs.drop i).head? = some '\n') then [(i, [])]
  else []

/-- Capturing group: records the consumed substring after any inner
groups. -/
def mGrp (m : Matcher) : Matcher := fun cs i =>
  (m cs i).map (fun p => (p.1, p.2 ++ [String.mk ((cs.drop i).take (p.1 - i))]))

/-- re.search: the captured groups of the first match — the
highest-priority alternative at the leftmost start index that matches. -/
def reSearch (m : Matcher) (s : String) : Option (List String) :=
  let cs := s.data
  (List.range (cs.length + 1)).findSome? (fun i => (m cs i).head?.map (fun p => p.2))

/- ===== Field parsers (src/scrapers/base.py, duplicated verbatim in
src/scrapers/static_scraper.py) ===== -/

/-- The first maximal run of class characters in a character list
(the text matched by re.search of `p+`). -/
def firstRun (p : Char → Bool) : List Char → Option (List Char)
  | [] => none
  | c :: rest => if p c then some ((c :: rest).takeWhile p) else firstRun p rest

/-- BaseScraper._parse_price: strip every character that is not a digit or
a dot, then float(); an empty cleaned string yields None, and the
ValueError of float() on a malformed remainder is caught and yields
None. -/
def _parse_price (text : String) : Option ℚ :=
  let cleaned := text.data.filter isDigitOrDot
  if cleaned.isEmpty then none else pyFloat? (String.mk cleaned)

/-- BaseScraper._parse_int: int() of the first match of `\d+`, None if no
match. -/
def _parse_int (text : String) : Option Nat :=
  (firstRun Char.isDigit text.data).map digitsVal

/-- BaseScraper._parse_float: float() of the first match of `[\d.]+`, None
if no match; the ValueError of float() on a run such as "1.2.3" is caught
and yields None. -/
def _parse_float (text : String) : Option ℚ :=
  match firstRun isDigitOrDot text.data with
  | none => none
  | some run => pyFloat? (String.mk run)

/- ===== PlaywrightScraper._parse_combined_details ===== -/

/-- A Python exception escaping the modelled code. -/
inductive PyErr where
  | valueError
  | typeError
  | fetchError
deriving DecidableEq

/-- The pattern `(\d+)\s*(?:bed|br|bedroom)`. -/
def bedsPattern : Matcher :=
  mSeq (mGrp (mClsPlus Char.isDigit))
    (mSeq (mClsStar isSpaceChar) (mAlt [mLit "bed", mLit "br", mLit "bedroom"]))

/-- The pattern `([\d.]+)\s*(?:bath|ba|bathroom)`. -/
def bathsPattern : Matcher :=
  mSeq (mGrp (mClsPlus isDigitOrDot))
    (mSeq (mClsStar isSpaceChar) (mAlt [mLit "bath", mLit "ba", mLit "bathroom"]))

/-- The pattern `([\d,]+)\s*(?:sq\.?\s*ft\.?|sqft|sf)`. -/
def sqftPattern : Matcher :=
  mSeq (mGrp (mClsPlus isDigitOrComma))
    (mSeq (mClsStar isSpaceChar)
      (mAlt [mSeq (mLit "sq")
               (mSeq (mOpt (mLit "."))
                 (mSeq (mClsStar isSpaceChar) (mSeq (mLit "ft") (mOpt (mLit "."))))),
             mLit "sqft", mLit "sf"]))

/-- PlaywrightScraper._parse_combined_details: extract bedrooms, bathrooms
and square footage from a combined text such as "1 bed 1 bath 803 sq. ft.".
The float() on the bathrooms group and the int() on the de-commaed square
footage group are not wrapped in any try/except in the source, so a
malformed group (for example "1.2.3" before "bath", or a bare "," before
"sf") raises a ValueError that escapes; this is modelled by Except.error. -/
def _parse_combined_details (text : String) :
    Except PyErr (Option Nat × Option ℚ × Option Nat) := do
  let text_lower := pyLower text
  let bedrooms : Option Nat :=
    match reSearch bedsPattern text_lower with
    | some (g :: _) => some (digitsVal g.data)
    | _ => none
  let bathrooms : Option ℚ ←
    match reSearch bathsPattern text_lower with
    | some (g :: _) =>
        match pyFloat? g with
        | some q => pure (some q)
        | none => throw PyErr.valueError
    | _ => pure none
  let sqft : Option Nat ←
    match reSearch sqftPattern text_lower with
    | some (g :: _) =>
        let ds := g.data.filter (fun c => !(c == ','))
        if ds.isEmpty then throw PyErr.valueError else pure (some (digitsVal ds))
    | _ => pure none
  return (bedrooms, bathrooms, sqft)

/- ===== PlaywrightScraper._parse_move_in_date ===== -/

/-- The ordered month-name alternatives of the month_names dict, in
insertion order (the order the alternation tries them in). -/
def monthKeys : List String :=
  ["jan", "january", "feb", "february", "mar", "march",
   "apr", "april", "may", "jun", "june", "jul", "july",
   "aug", "august", "sep", "september", "oct", "october",
   "nov", "november", "dec", "december"]

/-- month_names.get on a month key. -/
def monthNum (key : String) : Option Nat :=
  if key = "jan" ∨ key = "january" then some 1
  else if key = "feb" ∨ key = "february" then some 2
  else if key = "mar" ∨ key = "march" then some 3
  else if key = "apr" ∨ key = "april" then some 4
  else if key = "may" then some 5
  else if key = "jun" ∨ key = "june" then some 6
  else if key = "jul" ∨ key = "july" then some 7
  else if key = "aug" ∨ key = "august" then some 8
  else if key = "sep" ∨ key = "september" then some 9
  else if key = "oct" ∨ key = "october" then some 10
  else if key = "nov" ∨ key = "november" then some 11
  else if key = "dec" ∨ key = "december" then some 12
  else none

/-- The pattern `(\d{1,2})[/\-](\d{1,2})[/\-](\d{2,4})` of the numeric
date rule. -/
def numericDatePattern : Matcher :=
  mSeq (mGrp (mClsRep Char.isDigit 1 2))
    (mSeq (mCls (fun c => c == '/' || c == '-'))
      (mSeq (mGrp (mClsRep Char.isDigit 1 2))
        (mSeq (mCls (fun c => c == '/' || c == '-'))
          (mGrp (mClsRep Char.isDigit 2 4)))))

/-- The month-name alternation `(jan|january|...|december)` as a capturing
group. -/
def monthAltPattern : Matcher := mGrp (mAlt (monthKeys.map mLit))

/-- The pattern `(month)\w*\.?\s+(\d{1,2})\w*,?\s*(\d{4})` of the textual
date rule with an explicit year. -/
def textualYearPattern : Matcher :=
  mSeq monthAltPattern
    (mSeq (mClsStar isWordChar)
      (mSeq (mOpt (mLit "."))
        (mSeq (mClsPlus isSpaceChar)
          (mSeq (mGrp (mClsRep Char.isDigit 1 2))
            (mSeq (mClsStar isWordChar)
              (mSeq (mOpt (mLit ","))
                (mSeq (mClsStar isSpaceChar)
                  (mGrp (mClsRep Char.isDigit 4 4)))))))))

/-- The pattern `(month)\w*\.?\s+(\d{1,2})(?:st|nd|rd|th)?(?:\s|$|,)` of
the textual date rule without a year. -/
def textualNoYearPattern : Matcher :=
  mSeq monthAltPattern
    (mSeq (mClsStar isWordChar)
      (mSeq (mOpt (mLit "."))
        (mSeq (mClsPlus isSpaceChar)
          (mSeq (mGrp (mClsRep Char.isDigit 1 2))
            (mSeq (mOpt (mAlt [mLit "st", mLit "nd", mLit "rd", mLit "th"]))
              (mAlt [mCls isSpaceChar, mEnd, mLit ","]))))))

/-- The month-name-with-explicit-year rule of _parse_move_in_date: on a
match, look the month up and build the date; the rule's value is exactly
the mkDate? result, since the source returns the constructed date and
turns the ValueError of an invalid one (caught by try/except pass) into
no result, falling through. -/
def textualYearRule (text_lower : String) : Option PyDate :=
  match reSearch textualYearPattern text_lower with
  | some (gm :: gd :: gy :: _) =>
      match monthNum (gm.take 3) with
      | some m => mkDate? (digitsVal gy.data) m (digitsVal gd.data)
      | none => none
  | _ => none

/-- The month-name-without-year rule of _parse_move_in_date, defaulting to
the given current year; as above, the value is exactly the mkDate? result
(an invalid calendar date is a caught ValueError and gives no result). -/
def textualNoYearRule (year : Nat) (text_lower : String) : Option PyDate :=
  match reSearch textualNoYearPattern text_lower with
  | some (gm :: gd :: _) =>
      match monthNum (gm.take 3) with
      | some m => mkDate? year m (digitsVal gd.data)
      | none => none
  | _ => none

/-- PlaywrightScraper._parse_move_in_date: the ordered rule list. Rule
one: the tokens "now"/"today" anywhere in the lowered text give today's
date. Rule two: the first numeric M/D/Y or M-D-Y match (2-digit years
read as 2000+YY); an invalid calendar date is a caught ValueError and
falls through. Rule three: month name, day and explicit 4-digit year.
Rule four: month name and day (with an optional ordinal suffix) and no
year, defaulting to today's year. No rule matching gives None. The
current date is passed explicitly as `today`. -/
def _parse_move_in_date (today : PyDate) (text : String) : Option PyDate :=
  let text_lower := pyLower text
  if isSubstringOf "now" text_lower || isSubstringOf "today" text_lower then
    some today
  else
    let laterRules :=
      match textualYearRule text_lower with
      | some d => some d
      | none => textualNoYearRule today.year text_lower
    match reSearch numericDatePattern text with
    | some (g1 :: g2 :: g3 :: _) =>
        let month := digitsVal g1.data
        let day := digitsVal g2.data
        let y0 := digitsVal g3.data
        let year := if y0 < 100 then y0 + 2000 else y0
        match mkDate? year month day with
        | some d => some d
        | none => laterRules
    | _ => laterRules

/- ===== Per-candidate listing construction =====

The selector queries against the fetched page are the input boundary of
_parse_listing: a CandidateTexts value records, for one listing container,
what each configured selector query produced — `none` for a missing
element (or, for href, a missing attribute), and the element's (stripped)
text otherwise.  An empty string is falsy in Python, so the guards of the
source distinguish none/"" from non-empty text exactly where the source
tests truthiness. -/

/-- The selector-query results for one candidate container. -/
structure CandidateTexts where
  title : Option String := none
  href : Option String := none
  price : Option String := none
  beds : Option String := none
  baths : Option String := none
  sqft : Option String := none
  availability : Option String := none
  details : Option String := none
deriving DecidableEq

/-- Python truthiness of an optional string. -/
def truthy : Option String → Bool
  | none => false
  | some s => !(s == "")

/-- urllib.parse.urljoin for the one case the scrapers use: joining an
absolute path onto a base page URL of the shape scheme://host/..., which
keeps the base's scheme and host and replaces the path; a base without
"://" yields the path itself. -/
def urljoin (base url : String) : String :=
  match base.splitOn "://" with
  | scheme :: rest :: _ => scheme ++ "://" ++ (rest.splitOn "/").headD "" ++ url
  | _ => url

/-- StaticScraper._parse_listing: build one Listing from a candidate's
selector texts, or None when the title is missing or empty.  The URL
falls back to the site's page URL; prices and the bed/bath/sqft fields go
through the field parsers whenever their element exists; availability
text containing "unavailable" or "not available" (case-insensitively)
marks the listing unavailable.  No move_in_date is ever set by this
variant. -/
def static_parse_listing (cfg_name cfg_url : String) (c : CandidateTexts) :
    Option Listing :=
  if truthy c.title then
    let title := c.title.getD ""
    let url :=
      match c.href with
      | some h => if !(h == "") then (if h.startsWith "/" then urljoin cfg_url h else h)
                  else cfg_url
      | none => cfg_url
    let price := c.price.bind _parse_price
    let bedrooms := c.beds.bind _parse_int
    let bathrooms := c.baths.bind _parse_float
    let sqft := c.sqft.bind _parse_int
    let available :=
      match c.availability with
      | some t =>
          let lt := pyLower t
          !(isSubstringOf "unavailable" lt) && !(isSubstringOf "not available" lt)
      | none => true
    some (mkListing cfg_name title url price bedrooms bathrooms sqft available none 0)
  else none

/-- PlaywrightScraper._parse_listing: as the static variant, but field
texts are only parsed when truthy, a combined details text takes
precedence over the three individual bed/bath/sqft selectors (and its
uncaught ValueError propagates), and an availability text additionally
yields the move_in_date via _parse_move_in_date, independently of the
availability boolean. -/
def playwright_parse_listing (cfg_name cfg_url : String) (today : PyDate)
    (c : CandidateTexts) : Except PyErr (Option Listing) :=
  if truthy c.title then
    let title := c.title.getD ""
    let url0 := c.href.getD ""
    let url1 := if !(url0 == "") && url0.startsWith "/" then urljoin cfg_url url0 else url0
    let url := if !(url1 == "") then url1 else cfg_url
    let price := if truthy c.price then _parse_price (c.price.getD "") else none
    let detailRes : Except PyErr (Option Nat × Option ℚ × Option Nat) :=
      if truthy c.details then
        _parse_combined_details (c.details.getD "")
      else
        Except.ok
          (if truthy c.beds then _parse_int (c.beds.getD "") else none,
           if truthy c.baths then _parse_float (c.baths.getD "") else none,
           if truthy c.sqft then _parse_int (c.sqft.getD "") else none)
    match detailRes with
    | Except.error e => Except.error e
    | Except.ok (bedrooms, bathrooms, sqft) =>
      let am : Bool × Option PyDate :=
        match c.availability with
        | some t =>
            if !(t == "") then
              let lt := pyLower t
              (!(isSubstringOf "unavailable" lt) && !(isSubstringOf "not available" lt),
               _parse_move_in_date today t)
            else (true, none)
        | none => (true, none)
      Except.ok (some (mkListing cfg_name title url price bedrooms bathrooms sqft am.1
        am.2 0))
  else
    Except.ok none

/- ===== Listing store (src/models/database.py) =====

The listings table is modelled as a list of rows; id is the primary key,
so a healthy store holds pairwise distinct ids (INSERT OR REPLACE
preserves this).  Row order carries no meaning for the modelled
operations. -/

/-- The persisted listings table. -/
abbrev DB := List Listing

/-- Database.is_new_listing: no stored row has the given id. -/
def is_new_listing (db : DB) (listing_id : String) : Bool :=
  db.all (fun r => !(r.id == listing_id))

/-- Database.save_listing: INSERT OR REPLACE keyed on id — any row with
the same id is replaced, otherwise the row is inserted. -/
def save_listing (db : DB) (l : Listing) : DB :=
  db.filter (fun r => !(r.id == l.id)) ++ [l]

/-- Database.remove_stale_listings: with an empty current set, remove
nothing and return 0; otherwise delete every row whose id is stored for
this site but absent from the current set, and return how many distinct
such ids there were.  The return value is the COUNT of removed ids — an
int, not a list of rows. -/
def remove_stale_listings (db : DB) (site_name : String) (current_ids : Finset String) :
    DB × Nat :=
  if current_ids = ∅ then (db, 0)
  else
    let existing_ids : Finset String :=
      ((db.filter (fun r => r.site_name == site_name)).map Listing.id).toFinset
    let stale_ids := existing_ids \ current_ids
    (db.filter (fun r => !(decide (r.id ∈ stale_ids))), stale_ids.card)

/- ===== Scrape orchestration (src/server.py) =====

A site's extraction outcome (scraper.scrape()) is the input boundary:
Except.error models a scrape that raised (FetchError, a render timeout,
or any other fault), Except.ok the extracted listing list. -/

/-- ApartmentFinderServer.scrape_site.  Each extracted listing is
classified as new iff its id is not yet stored at that moment, then
saved; then the stale rows of the site are removed.  remove_stale_listings
returns an int count, and on a truthy (non-zero) count server.py calls
len() on that int, which raises a TypeError after the database changes
have already been committed; this is modelled by Except.error
PyErr.typeError on the post-removal store. -/
def scrape_site (db : DB) (site_name : String)
    (fetched : Except PyErr (List Listing)) :
    DB × Except PyErr (List Listing × Nat) :=
  match fetched with
  | Except.error e => (db, Except.error e)
  | Except.ok all_listings =>
    let step := all_listings.foldl
      (fun (acc : DB × List Listing) l =>
        let new := if is_new_listing acc.1 l.id then acc.2 ++ [l] else acc.2
        (save_listing acc.1 l, new))
      (db, [])
    let current_ids : Finset String := (all_listings.map Listing.id).toFinset
    let rr := remove_stale_listings step.1 site_name current_ids
    if rr.2 ≠ 0 then (rr.1, Except.error PyErr.typeError)
    else (rr.1, Except.ok (step.2, rr.2))

/-- ApartmentFinderServer.scrape_all over the configured sites, each given
with its extraction outcome.  A per-site exception is caught and that
site's contribution skipped.  For a site whose scrape_site call returns,
the new listings are appended to the aggregate; the subsequent
all_removed_listings.extend(...) is applied to the int returned by
remove_stale_listings, which raises a TypeError that the same per-site
handler catches — so no removed aggregate is ever accumulated. -/
def scrape_all (db : DB) (sites : List (String × Except PyErr (List Listing))) :
    DB × List Listing × List Listing :=
  sites.foldl
    (fun acc site =>
      let res := scrape_site acc.1 site.1 site.2
      match res.2 with
      | Except.error _ => (res.1, acc.2.1, acc.2.2)
      | Except.ok nr => (res.1, acc.2.1 ++ nr.1, acc.2.2))
    (db, [], [])

/- ===== Fixtures and auxiliary definitions for the verification ===== -/

/-- Decidable equality of Except results, for evaluating the modelled
fallible operations on concrete inputs. -/
instance {e a : Type} [DecidableEq e] [DecidableEq a] : DecidableEq (Except e a) := fun x y =>
  match x, y with
  | Except.error e1, Except.error e2 =>
      if h : e1 = e2 then isTrue (by rw [h])
      else isFalse (fun hc => h (Except.error.inj hc))
  | Except.error _, Except.ok _ => isFalse (fun hc => Except.noConfusion hc)
  | Except.ok _, Except.error _ => isFalse (fun hc => Except.noConfusion hc)
  | Except.ok v1, Except.ok v2 =>
      if h : v1 = v2 then isTrue (by rw [h])
      else isFalse (fun hc => h (Except.ok.inj hc))

/-- A lowercase hexadecimal digit character. -/
def isHexCh (c : Char) : Bool := c.isDigit || ('a' ≤ c && c ≤ 'f')

/-- The spec's stale_fingerprints set: every fingerprint stored for a site
(the same set the removal operation computes before subtracting the
current set). -/
def siteFingerprints (db : DB) (site_name : String) : Finset String :=
  ((db.filter (fun r => r.site_name == site_name)).map Listing.id).toFinset

/-- The exact decimal value of a run of digits with at most one decimal
point: integer part plus fractional part. -/
def decimalValue (run : List Char) : ℚ :=
  (digitsVal (run.takeWhile (fun c => !(c == '.'))) : ℚ)
    + (digitsVal ((run.dropWhile (fun c => !(c == '.'))).drop 1) : ℚ)
      / ((10 : ℚ) ^ ((run.dropWhile (fun c => !(c == '.'))).drop 1).length)

/- Concrete store rows for the store and orchestration scenarios (ids play
the role of fingerprints; the store accepts any row values). -/

def rowA : Listing := { site_name := "s", title := "A", url := "ua", id := "fpA" }
def rowB : Listing := { site_name := "s", title := "B", url := "ub", id := "fpB" }
def rowC : Listing := { site_name := "s", title := "C", url := "uc", id := "fpC" }
def dbABC : DB := [rowA, rowB, rowC]

def staleRow : Listing :=
  { site_name := "aptsite", title := "Old unit", url := "u0", id := "fpOld" }
def freshRow : Listing :=
  { site_name := "aptsite", title := "New unit", url := "u1", id := "fpNew" }
def otherSiteRow : Listing :=
  { site_name := "second", title := "Keep", url := "u2", id := "fpKeep" }

/-- A fixed current date for concrete scenarios. -/
def d0 : PyDate := ⟨2026, 1, 1⟩

/-- A candidate whose availability selector yields a parseable date. -/
def availDateCand : CandidateTexts :=
  { title := some "Unit 9", availability := some "Available 01/28/25" }

/-- A candidate whose availability selector yields "Available Now". -/
def availNowCand : CandidateTexts :=
  { title := some "Unit 7", availability := some "Available Now" }

/-- The record the Interactive variant builds from availNowCand. -/
def c4Listing : Listing :=
  mkListing "apts" "Unit 7" "http://apts.example/list" none none none none
    true (_parse_move_in_date d0 "Available Now") 0

/-- The record the Static variant builds from availDateCand. -/
def c4StaticListing : Listing :=
  mkListing "apts" "Unit 9" "http://apts.example/list" none none none none true none 0

/- ===== Helper lemmas ===== -/

/-- Every character of a first maximal class run satisfies the class. -/
theorem firstRun_all {p : Char → Bool} {cs run : List Char}
    (h : firstRun p cs = some run) : run.all p = true := by
  induction cs with
  | nil => simp [firstRun] at h
  | cons c rest ih =>
    by_cases hc : p c
    · simp [firstRun, hc] at h
      subst h
      refine List.all_eq_true.mpr ?_
      intro a ha
      rcases List.mem_cons.mp ha with rfl | ha'
      · exact hc
      · exact List.mem_takeWhile_imp ha'
    · simp [firstRun, hc] at h
      exact ih h

/-- hexChar of a value below 16 is a lowercase hexadecimal digit. -/
theorem hexChar_hex : ∀ n, n < 16 → isHexCh (hexChar n) = true := by decide

/-- A hexadecimal word rendering has eight characters. -/
theorem hexOfWord_length (w : Nat) : (hexOfWord w).length = 8 := by simp [hexOfWord]

/-- Every character of a hexadecimal word rendering is a hex digit. -/
theorem hexOfWord_all (w : Nat) : (hexOfWord w).all isHexCh = true := by
  apply List.all_eq_true.mpr
  intro c hc
  simp [hexOfWord] at hc
  obtain ⟨i, hi, hceq⟩ := hc
  rw [← hceq]
  exact hexChar_hex _ (Nat.mod_lt _ (by norm_num))

/-- A SHA-256 hexdigest has 64 characters. -/
theorem sha256hexChars_length (msg : List Nat) : (sha256hexChars msg).length = 64 := by
  simp [sha256hexChars, hexOfWord_length]

/-- Every character of a SHA-256 hexdigest is a hex digit. -/
theorem sha256hexChars_all (msg : List Nat) :
    (sha256hexChars msg).all isHexCh = true := by
  simp [sha256hexChars, List.all_append, hexOfWord_all]

/-- The normalised fraction built by pyFloat? is the decimal value. -/
theorem mkRat_decimal (a b l : Nat) :
    mkRat ((a * 10 ^ l + b : Nat) : Int) (10 ^ l) = (a : ℚ) + (b : ℚ) / ((10 : ℚ) ^ l) := by
  have hl : ((10 : ℚ) ^ l) ≠ 0 := by positivity
  rw [Rat.mkRat_eq_div]
  push_cast
  field_simp

/-- float() on a run with at least one digit and at most one dot yields
its decimal value. -/
theorem pyFloat?_valid (run : List Char) (hall : run.all isDigitOrDot = true)
    (hdig : run.any Char.isDigit = true) (hdot : run.count '.' ≤ 1) :
    pyFloat? (String.mk run) = some (decimalValue run) := by
  have hcond : (run.all isDigitOrDot && run.any Char.isDigit
      && decide (run.count '.' ≤ 1)) = true := by
    simp [hall, hdig, hdot]
  show (if (run.all isDigitOrDot && run.any Char.isDigit
          && decide (run.count '.' ≤ 1)) = true
      then some (mkRat ((digitsVal (run.takeWhile (fun c => !(c == '.')))
              * 10 ^ ((run.dropWhile (fun c => !(c == '.'))).drop 1).length
              + digitsVal ((run.dropWhile (fun c => !(c == '.'))).drop 1) : Nat) : Int)
            (10 ^ ((run.dropWhile (fun c => !(c == '.'))).drop 1).length))
      else none) = some (decimalValue run)
  rw [if_pos hcond]
  unfold decimalValue
  exact congrArg some (mkRat_decimal _ _ _)

/- ===== The claims ===== -/

/-- C1: the claim says scrape_site returns, as the second component, the
list of pre-removal Record values of the stale fingerprints it removed.
In the code remove_stale_listings returns an int count, and server.py
treats that count as a list: on the concrete run below one stale row
exists, the removal commits, and the len() call on the returned int
raises a TypeError, so scrape_site raises instead of returning — and even
with zero removals the second component would be the int 0, never a list
of records. -/
theorem C1_scrape_site_returns_count_and_raises :
    scrape_site [staleRow] "aptsite" (Except.ok [freshRow])
        = ([freshRow], Except.error PyErr.typeError)
    ∧ (remove_stale_listings [staleRow] "aptsite" {freshRow.id}).2 = 1 := by decide

/-- C2: for every store state and site name, the stale-removal operation
called with an empty current fingerprint set removes nothing and reports
zero stale fingerprints, leaving every stored record in place. -/
theorem C2_empty_current_set_guard (db : DB) (site_name : String) :
    remove_stale_listings db site_name ∅ = (db, 0) := by
  simp [remove_stale_listings]

/-- C3: for every store with pairwise distinct stored fingerprints (the
primary-key invariant) and every non-empty current set, the stale-removal
operation returns the number of fingerprints stored for the site that are
absent from the current set, and the remaining store keeps exactly the
rows whose fingerprint is in the current set or which belong to another
site. -/
theorem C3_stale_removal_exact (db : DB) (site_name : String) (current : Finset String)
    (hcur : current ≠ ∅) (hids : (db.map Listing.id).Nodup) :
    (remove_stale_listings db site_name current).2
        = (siteFingerprints db site_name \ current).card
    ∧ (remove_stale_listings db site_name current).1
        = db.filter (fun r => decide (r.id ∈ current) || !(r.site_name == site_name)) := by
  unfold remove_stale_listings siteFingerprints
  rw [if_neg hcur]
  refine ⟨rfl, ?_⟩
  apply List.filter_congr
  intro r hr
  by_cases hsite : r.site_name = site_name
  · have hexist : r.id ∈
        ((db.filter (fun x => x.site_name == site_name)).map Listing.id).toFinset := by
      simp [List.mem_filter]
      exact ⟨r, ⟨hr, by simp [hsite]⟩, rfl⟩
    by_cases hc : r.id ∈ current
    · simp [Finset.mem_sdiff, hc, hsite]
    · simp [Finset.mem_sdiff, hc, hsite, hexist]
  · have hnot : r.id ∉
        ((db.filter (fun x => x.site_name == site_name)).map Listing.id).toFinset := by
      simp only [List.mem_toFinset, List.mem_map, List.mem_filter]
      rintro ⟨r', ⟨hr'db, hsite'⟩, hid⟩
      have heq : r' = r := List.inj_on_of_nodup_map hids hr'db hr hid
      apply hsite
      rw [← heq]
      simpa using hsite'
    simp [Finset.mem_sdiff, hnot, hsite]

/-- C3 witness: stored fingerprints fpA, fpB, fpC for site s with current
set containing fpA and fpC — exactly fpB's row is removed, the count is
one, and fpA's and fpC's rows remain. -/
theorem C3_stale_removal_exact_witness :
    remove_stale_listings dbABC "s" {"fpA", "fpC"} = ([rowA, rowC], 1)
    ∧ ((remove_stale_listings dbABC "s" {"fpA", "fpC"}).2
        = (siteFingerprints dbABC "s" \ {"fpA", "fpC"}).card
      ∧ (remove_stale_listings dbABC "s" {"fpA", "fpC"}).1
        = dbABC.filter (fun r =>
            decide (r.id ∈ ({"fpA", "fpC"} : Finset String)) || !(r.site_name == "s"))) :=
  ⟨by decide, C3_stale_removal_exact dbABC "s" {"fpA", "fpC"} (by decide) (by decide)⟩

/-- C4 counterexample: in the Static variant the claim fails — the
availability selector yields a date text that parse_move_in_date turns
into 2025-01-28, yet the constructed record's move_in_date is absent,
because StaticScraper._parse_listing never sets that field. -/
theorem C4_static_move_in_date_counterexample :
    (static_parse_listing "apts" "http://apts.example/list" availDateCand).map
        Listing.move_in_date = some none
    ∧ _parse_move_in_date d0 "Available 01/28/25" = some ⟨2025, 1, 28⟩ := by
  constructor
  · rfl
  · rfl

/-- C4 amended: in the Interactive variant, every constructed record whose
availability selector yielded non-empty text carries move_in_date equal to
parse_move_in_date of that text, independently of the availability
boolean; the Static variant always leaves move_in_date absent. -/
theorem C4_move_in_date_amended :
    (∀ cfg_name cfg_url today c t l, c.availability = some t → ¬(t = "") →
        playwright_parse_listing cfg_name cfg_url today c = Except.ok (some l) →
        l.move_in_date = _parse_move_in_date today t)
    ∧ (∀ cfg_name cfg_url c l, static_parse_listing cfg_name cfg_url c = some l →
        l.move_in_date = none) := by
  constructor
  · intro cfg_name cfg_url today c t l hav htne h
    have hbe : (t == "") = false := beq_eq_false_iff_ne.mpr htne
    by_cases ht : truthy c.title = true
    · simp only [playwright_parse_listing, ht, if_true, hav, hbe, Bool.not_false] at h
      split at h
      · exact absurd h (by simp)
      · have h1 := Option.some.inj (Except.ok.inj h)
        rw [← h1]
        simp [mkListing]
    · simp only [playwright_parse_listing, ht] at h
      simp at h
  · intro cfg_name cfg_url c l h
    by_cases ht : truthy c.title = true
    · simp only [static_parse_listing, ht, if_true] at h
      have h1 := Option.some.inj h
      rw [← h1]
      simp [mkListing]
    · simp only [static_parse_listing, ht] at h
      simp at h

/-- C4 witness: a concrete Interactive candidate with availability text
"Available Now" yields a record whose move_in_date is the parsed date,
and a concrete Static candidate yields a record with no move_in_date. -/
theorem C4_move_in_date_amended_witness :
    playwright_parse_listing "apts" "http://apts.example/list" d0 availNowCand
        = Except.ok (some c4Listing)
    ∧ c4Listing.move_in_date = _parse_move_in_date d0 "Available Now"
    ∧ c4StaticListing.move_in_date = none :=
  ⟨rfl,
   C4_move_in_date_amended.1 "apts" "http://apts.example/list" d0 availNowCand
     "Available Now" c4Listing rfl (by decide) rfl,
   C4_move_in_date_amended.2 "apts" "http://apts.example/list" availDateCand
     c4StaticListing rfl⟩

/-- C5: the claim says every field-parsing conversion never raises; but
parse_combined_details applies float() to the bathrooms group and int()
to the de-commaed square-footage group without any try/except, so the
texts "1.2.3 bath" and ", sf" raise an uncaught ValueError (the last
conjunct shows the well-formed example from the documentation parsing
normally). -/
theorem C5_combined_details_uncaught_valueerror :
    _parse_combined_details "1.2.3 bath" = Except.error PyErr.valueError
    ∧ _parse_combined_details ", sf" = Except.error PyErr.valueError
    ∧ _parse_combined_details "1 bed 1 bath 803 sq. ft."
        = Except.ok (some 1, some 1, some 803) := by decide

/-- C6 counterexample: the claim says parse_float is absent exactly when
the string contains no digits, but on "1.2.3" — which contains digits —
the matched run "1.2.3" makes float() raise, the exception is caught, and
the result is absent. -/
theorem C6_parse_float_counterexample :
    _parse_float "1.2.3" = none ∧ "1.2.3".data.any Char.isDigit = true := by decide

/-- C6 amended: parse_float takes the first maximal run of digits and
decimal points; when that run has at least one digit and at most one dot
the result is its exact decimal value, and the result is absent when
there is no such run, the run has no digit, or the run has two or more
dots. -/
theorem C6_parse_float_amended (s : String) :
    (firstRun isDigitOrDot s.data = none → _parse_float s = none)
    ∧ (∀ run, firstRun isDigitOrDot s.data = some run →
        (run.any Char.isDigit = true → run.count '.' ≤ 1 →
            _parse_float s = some (decimalValue run))
        ∧ ((run.any Char.isDigit = false ∨ 2 ≤ run.count '.') →
            _parse_float s = none)) := by
  constructor
  · intro h
    simp [_parse_float, h]
  · intro run hrun
    have hall : run.all isDigitOrDot = true := firstRun_all hrun
    constructor
    · intro hdig hdot
      simp only [_parse_float, hrun]
      exact pyFloat?_valid run hall hdig hdot
    · intro hbad
      rcases hbad with hnd | hdd
      · simp [_parse_float, hrun, pyFloat?, hnd]
      · have : ¬ (run.count '.' ≤ 1) := by omega
        simp [_parse_float, hrun, pyFloat?, this]

/-- C6 witness: "abc" has no run and is absent; in "12.5x" the first run
"12.5" is a valid numeral and parses to its decimal value; in "1.2.3" the
first run has two dots and is absent. -/
theorem C6_parse_float_amended_witness :
    _parse_float "abc" = none
    ∧ _parse_float "12.5x" = some (decimalValue ("12.5".data))
    ∧ _parse_float "1.2.3" = none :=
  ⟨(C6_parse_float_amended "abc").1 (by decide),
   (((C6_parse_float_amended "12.5x").2 ("12.5".data) (by decide)).1 (by decide) (by decide)),
   (((C6_parse_float_amended "1.2.3").2 ("1.2.3".data) (by decide)).2 (Or.inr (by decide)))⟩

/-- C7: parse_move_in_date applies its rules in priority order with the
first match winning — a "now"/"today" token always yields today's date;
otherwise a numeric M/D/Y or M-D-Y form (2-digit year read as 2000+YY);
otherwise month name, day and explicit 4-digit year; otherwise month name
and day with an ordinal suffix, defaulting to the current year; an
invalid calendar date (such as month 13) is no match and falls through to
the later rules, and nothing matching gives absent. -/
theorem C7_move_in_date_rule_order (today : PyDate) :
    (∀ text, (isSubstringOf "now" (pyLower text)
          || isSubstringOf "today" (pyLower text)) = true →
        _parse_move_in_date today text = some today)
    ∧ _parse_move_in_date today "Available 01/28/25" = some ⟨2025, 1, 28⟩
    ∧ _parse_move_in_date today "Available 1-5-2026" = some ⟨2026, 1, 5⟩
    ∧ _parse_move_in_date today "Move in January 28, 2025" = some ⟨2025, 1, 28⟩
    ∧ _parse_move_in_date today "Available February 7th" = mkDate? today.year 2 7
    ∧ _parse_move_in_date today "13/45/25 or February 7th" = mkDate? today.year 2 7
    ∧ _parse_move_in_date today "Available 13/45/25" = none
    ∧ _parse_move_in_date today "no info" = none := by
  refine ⟨?_, rfl, rfl, rfl, rfl, rfl, rfl, rfl⟩
  intro text h
  simp [_parse_move_in_date, h]

/-- C7 witness: a concrete text containing the token "now" parses to the
concrete current date. -/
theorem C7_move_in_date_rule_order_witness :
    _parse_move_in_date ⟨2026, 10, 12⟩ "Ready now" = some ⟨2026, 10, 12⟩ :=
  (C7_move_in_date_rule_order ⟨2026, 10, 12⟩).1 "Ready now" (by decide)

/-- C8: the fingerprint is a pure function of (site_name, title, url)
only — it equals the SHA-256 hexdigest of the pipe-joined concatenation
of the three fields truncated to its first 16 characters, those 16
characters are hexadecimal digits, and two records built from identical
site/title/url receive identical fingerprints whatever their other
fields. -/
theorem C8_fingerprint_function_of_triple (site_name title url : String)
    (p1 p2 : Option ℚ) (b1 b2 : Option Nat) (ba1 ba2 : Option ℚ) (s1 s2 : Option Nat)
    (av1 av2 : Bool) (m1 m2 : Option PyDate) (t1 t2 : Nat) :
    Listing._generate_id site_name title url
      = String.mk ((sha256hexChars (strUtf8 (site_name ++ "|" ++ title ++ "|" ++ url))).take 16)
    ∧ (Listing._generate_id site_name title url).data.length = 16
    ∧ (Listing._generate_id site_name title url).data.all isHexCh = true
    ∧ (mkListing site_name title url p1 b1 ba1 s1 av1 m1 t1).id
        = (mkListing site_name title url p2 b2 ba2 s2 av2 m2 t2).id := by
  refine ⟨rfl, ?_, ?_, rfl⟩
  · show ((sha256hexChars _).take 16).length = 16
    rw [List.length_take, sha256hexChars_length]
    decide
  · apply List.all_eq_true.mpr
    intro c hc
    have hc' : c ∈ sha256hexChars (strUtf8 (site_name ++ "|" ++ title ++ "|" ++ url)) :=
      List.take_subset _ _ hc
    exact List.all_eq_true.mp (sha256hexChars_all _) c hc'

/-- C9: the claim says a failing site is excluded while every other
site's new and removed results still contribute; in the code the first
site is down and is skipped, but the second site — whose extraction
succeeds and which removes one stale row — is also excluded from the
aggregate (the TypeError of len() on the removal count), and the removed
aggregate is always empty because extending it with the int count raises
inside the caught region; only the third site's new listing survives. -/
theorem C9_aggregate_drops_successful_site :
    scrape_all [staleRow]
        [("down", Except.error PyErr.fetchError),
         ("aptsite", Except.ok [freshRow]),
         ("second", Except.ok [otherSiteRow])]
      = ([freshRow, otherSiteRow], [otherSiteRow], []) := by decide

/-- C10: the fingerprint does not preserve field boundaries — the
distinct triples (site "a|b", title "c") and (site "a", title "b|c") with
the same url concatenate to the same pipe-joined string and therefore
receive identical fingerprints with certainty. -/
theorem C10_fingerprint_field_boundary_collision :
    (("a|b", "c", "u") : String × String × String) ≠ ("a", "b|c", "u")
    ∧ Listing._generate_id "a|b" "c" "u" = Listing._generate_id "a" "b|c" "u" := by
  constructor
  · decide
  · unfold Listing._generate_id
    rfl
